import Mathlib

/-!
# A shallow embedding of the coffee-shop drinks API

This file embeds `src/backend/src/api.py` — a small Flask CRUD API over a
catalog of drinks — and proves properties of its five routes, its error
translation and its CORS decoration.

The repository ships only `api.py`; the imported modules
`database/models.py` (the `Drink` ORM model) and `auth/auth.py`
(`AuthError`, `requires_auth`) are not part of the source tree, so those
pieces are modelled from the specification, as marked on each definition.

A central fact of the embedding: in the Python source every `abort(404)`
sits inside a `try` block whose final clause is `except(Exception):
abort(422)`.  The `HTTPException` raised by `abort` subclasses `Exception`,
so the 404 is caught by the handler's own catch-all and re-raised as 422.
-/

namespace CoffeeShop

/-- JSON values, the wire format of request and response bodies. -/
inductive Json where
  | null : Json
  | bool (b : Bool) : Json
  | num (n : Int) : Json
  | str (s : String) : Json
  | arr (elems : List Json) : Json
  | obj (members : List (String × Json)) : Json
deriving Repr

/-- Python truthiness of a JSON value: `None`, `0`, `""`, `[]` and `{}` are
falsy, everything else is truthy.  This is the test `if title:` /
`if recipe:` applies in the PATCH handler. -/
def Json.truthy : Json → Bool
  | .null => false
  | .bool b => b
  | .num n => n != 0
  | .str s => s != ""
  | .arr es => !es.isEmpty
  | .obj ms => !ms.isEmpty

/-- `body.get(k, None)` as the handlers call it: on a JSON object, the value
bound to `k`, defaulting to null when the key is absent; on any non-object
`body`, Python raises `AttributeError` — modelled as `none`. -/
def Json.dictGet (body : Json) (k : String) : Option Json :=
  match body with
  | .obj ms => some ((ms.lookup k).getD Json.null)
  | _ => none

/-- Whether a JSON value is a single object (as opposed to an array or a
scalar). -/
def Json.isObj : Json → Bool
  | .obj _ => true
  | _ => false

/-- Modelled from the spec: serialized recipe text (spec section 3 — recipe is
"stored as serialized text, deserialized on read", with the invariant that a
persisted recipe is always valid serialized data; `database/models.py` is not
under `src/`).  The serialization is therefore lossless, and a serialized
text is represented abstractly by the JSON value it encodes: `Serialized.mk`
plays the role of `json.dumps` and `Serialized.val` of the deserialization
performed on read. -/
structure Serialized where
  val : Json
deriving Repr

/-- `json.dumps` as the handlers use it (api.py lines 117 and 157): serialize
a JSON value for storage; see `Serialized`. -/
def dumps (v : Json) : Serialized := ⟨v⟩

/-- Modelled from the spec: a persisted Drink row (spec section 3;
`database/models.py` is not under `src/`): an integer id assigned by storage,
a title, and a recipe stored as serialized text.  The handlers pass raw JSON
body fields to the constructor, so `title` holds an arbitrary JSON value. -/
structure DrinkRow where
  id : Nat
  title : Json
  recipe : Serialized
deriving Repr

/-- The drink store: the repository's rows, in storage order. -/
abbrev Store := List DrinkRow

/-- One `{color, parts}` entry of a short-projected recipe (spec section 3:
the short projection omits ingredient names). -/
def shortEntry (e : Json) : Json :=
  Json.obj [("color", (e.dictGet "color").getD Json.null),
            ("parts", (e.dictGet "parts").getD Json.null)]

/-- Modelled from the spec: `Drink.short` (spec section 3;
`database/models.py` is not under `src/`) — `{id, title, recipe: [{color,
parts}]}`; the recipe text is deserialized on read and each entry loses its
`name` field. -/
def DrinkRow.short (d : DrinkRow) : Json :=
  Json.obj [("id", Json.num d.id), ("title", d.title),
            ("recipe",
              match d.recipe.val with
              | Json.arr es => Json.arr (es.map shortEntry)
              | v => v)]

/-- Modelled from the spec: `Drink.long` (spec section 3;
`database/models.py` is not under `src/`) — `{id, title, recipe: [{name,
color, parts}]}`: the deserialized recipe in full detail. -/
def DrinkRow.long (d : DrinkRow) : Json :=
  Json.obj [("id", Json.num d.id), ("title", d.title),
            ("recipe", d.recipe.val)]

/-- Modelled from the spec: the outcome of the Token Verifier on one request
(spec section 4.1; `auth/auth.py` is not under `src/`).  Verification either
fails — missing or malformed Authorization header, bad signature, expired
token, bad claims — with a machine-readable code/description pair, or yields
decoded claims whose permissions set may be absent entirely. -/
inductive TokenResult where
  | failure (code description : String) : TokenResult
  | claims (permissions : Option (List String)) (payload : Json) : TokenResult
deriving Repr

/-- An `AuthError` instance: its structured payload (`e.error`) and its HTTP
status (`e.status_code`). -/
structure AuthErr where
  error : Json
  status_code : Nat
deriving Repr

/-- The `{code, description}` payload an auth failure carries (spec
section 4.1). -/
def authPayload (code description : String) : Json :=
  Json.obj [("code", Json.str code), ("description", Json.str description)]

/-- Modelled from the spec: the check performed by the
`requires_auth(permission)` decorator (spec section 4.2 Permission Guard;
`auth/auth.py` is not under `src/`).  It runs the Token Verifier and
propagates its failure without invoking the handler; fails with
`PermissionsClaimMissing` when the verified claims carry no permissions set
at all, and with `Unauthorized` when the required permission is not in the
set; otherwise returns the claims payload that is passed to the wrapped
handler.  Every failure carries status 401 (spec sections 4.1, 4.2, 7). -/
def requires_auth (permission : String) (tok : TokenResult) :
    Except AuthErr Json :=
  match tok with
  | .failure code description =>
      .error ⟨authPayload code description, 401⟩
  | .claims none _ =>
      .error ⟨authPayload "permissions_claim_missing"
                "Permissions not included in token.", 401⟩
  | .claims (some perms) payload =>
      if permission ∈ perms then .ok payload
      else .error ⟨authPayload "unauthorized" "Permission not found.", 401⟩

/-- The Python exceptions a handler body can raise: an `AuthError`, the
`HTTPException` raised by `abort(code)`, or any other exception (storage
failure, serialization failure, body-parsing failure, ...).  All of these
subclass `Exception`. -/
inductive Exc where
  | authError (e : AuthErr) : Exc
  | httpAbort (code : Nat) : Exc
  | other : Exc
deriving Repr

/-- Outcomes of the external storage engine during one request (spec
section 1 treats the persistence engine as an external collaborator):
whether reads (`Drink.query...`) succeed, and whether the single-row write
(`insert` / `update` / `delete`) is accepted.  A refused write is a
`StorageError` (spec section 4.3), an ordinary exception at the handler
boundary; writes are atomic, so a refused write leaves the store
unchanged. -/
structure StorageBehavior where
  queryOk : Bool
  writeOk : Bool
deriving Repr, DecidableEq

/-- The id storage assigns to a newly created row (spec section 3: "assigned
by storage on creation"): one past the largest id in use. -/
def nextId (store : Store) : Nat :=
  (store.map DrinkRow.id).foldr Nat.max 0 + 1

/-- Modelled from the spec: `drink.insert()` (spec section 4.3 create;
`database/models.py` is not under `src/`): storage assigns a fresh id and
appends the row, or refuses the write with a `StorageError` (constraint
violation such as a duplicate title, or a store-side rejection of a null
field). -/
def insertDrink (store : Store) (title : Json) (recipe : Serialized)
    (writeOk : Bool) : Except Exc (DrinkRow × Store) :=
  if writeOk then
    let row : DrinkRow := ⟨nextId store, title, recipe⟩
    .ok (row, store ++ [row])
  else
    .error .other

/-- The `try` body of `GET /drinks` (api.py lines 56-67): short-project all
drinks, `abort(404)` when there are none, otherwise the 200 result body.  A
failing storage read raises an ordinary exception. -/
def get_drinks (store : Store) (sb : StorageBehavior) :
    Except Exc (Json × Store) :=
  if !sb.queryOk then .error .other
  else if (store.map DrinkRow.short).length == 0 then .error (.httpAbort 404)
  else .ok (Json.obj [("success", Json.bool true),
                      ("drinks", Json.arr (store.map DrinkRow.short))], store)

/-- The `try` body of `GET /drinks-detail` (api.py lines 82-93): the same as
`get_drinks` but with the long projection. -/
def get_drink_details (store : Store) (sb : StorageBehavior) :
    Except Exc (Json × Store) :=
  if !sb.queryOk then .error .other
  else if (store.map DrinkRow.long).length == 0 then .error (.httpAbort 404)
  else .ok (Json.obj [("success", Json.bool true),
                      ("drinks", Json.arr (store.map DrinkRow.long))], store)

/-- The `try` body of `POST /drinks` (api.py lines 112-125): read the JSON
body (`getJson` is the outcome of `request.get_json()`, which raises on a
malformed body), default an absent `title` or `recipe` to null, construct
the drink with the serialized recipe, insert it, and answer with the new
drink in long form — a single object.  A non-object body makes `body.get`
raise (`AttributeError`). -/
def post_drinks (store : Store) (getJson : Except Exc Json)
    (sb : StorageBehavior) : Except Exc (Json × Store) :=
  match getJson with
  | .error e => .error e
  | .ok body =>
    match body.dictGet "title", body.dictGet "recipe" with
    | some title, some recipe =>
      match insertDrink store title (dumps recipe) sb.writeOk with
      | .error e => .error e
      | .ok (drink, store') =>
        .ok (Json.obj [("success", Json.bool true),
                       ("drinks", drink.long)], store')
    | _, _ => .error .other

/-- The `try` body of `PATCH /drinks/{id}` (api.py lines 144-167): read the
body fields (null-defaulted), look the drink up (`one_or_none`), `abort(404)`
when absent, assign the title and the serialized recipe only when the
supplied value is truthy, persist with `drink.update()`, and answer with all
drinks in long form. -/
def update_drink (store : Store) (drink_id : Nat) (getJson : Except Exc Json)
    (sb : StorageBehavior) : Except Exc (Json × Store) :=
  match getJson with
  | .error e => .error e
  | .ok body =>
    match body.dictGet "title", body.dictGet "recipe" with
    | some title, some recipe =>
      if !sb.queryOk then .error .other
      else
        match store.find? (fun d => d.id == drink_id) with
        | none => .error (.httpAbort 404)
        | some drink =>
          let drink := if title.truthy then { drink with title := title }
                       else drink
          let drink := if recipe.truthy then { drink with recipe := dumps recipe }
                       else drink
          if !sb.writeOk then .error .other
          else
            let store' := store.map fun d => if d.id == drink_id then drink else d
            .ok (Json.obj [("success", Json.bool true),
                           ("drinks", Json.arr (store'.map DrinkRow.long))],
                 store')
    | _, _ => .error .other

/-- The `try` body of `DELETE /drinks/{id}` (api.py lines 186-199): look the
drink up (`Drink.query.get`), `abort(404)` when absent, delete the row, and
answer `{success: true, delete: drink_id}`. -/
def delete_drinks (store : Store) (drink_id : Nat) (sb : StorageBehavior) :
    Except Exc (Json × Store) :=
  if !sb.queryOk then .error .other
  else
    match store.find? (fun d => d.id == drink_id) with
    | none => .error (.httpAbort 404)
    | some _ =>
      if !sb.writeOk then .error .other
      else .ok (Json.obj [("success", Json.bool true),
                          ("delete", Json.num drink_id)],
                store.filter fun d => !(d.id == drink_id))

/-- The `except` clauses of `GET /drinks` (api.py lines 69-70): a single
`except(Exception): abort(422)`.  Every exception raised in the body —
including the `HTTPException` raised by `abort(404)`, which subclasses
`Exception` — is caught here and re-raised as `abort(422)`. -/
def get_drinks_catch (r : Except Exc (Json × Store)) :
    Except Nat (Json × Store) :=
  match r with
  | .ok v => .ok v
  | .error _ => .error 422

/-- The `except` clauses shared by the four authenticated handlers (e.g.
api.py lines 169-173): `except AuthError: abort(401)`, then
`except(Exception): abort(422)`.  As in `get_drinks_catch`, an `abort(404)`
raised inside the body is an `Exception` and lands in the second clause. -/
def authed_catch (r : Except Exc (Json × Store)) :
    Except Nat (Json × Store) :=
  match r with
  | .ok v => .ok v
  | .error (.authError _) => .error 401
  | .error _ => .error 422

/-- The body returned by the registered 422 error handler (api.py lines
213-219). -/
def unprocessable_body : Json :=
  Json.obj [("success", Json.bool false), ("error", Json.num 422),
            ("message", Json.str "unprocessable")]

/-- The body returned by the registered 404 error handler (api.py lines
223-229). -/
def not_found_body : Json :=
  Json.obj [("success", Json.bool false), ("error", Json.num 404),
            ("message", Json.str "resource not found")]

/-- Flask's built-in error page for a status with no registered handler
(api.py registers handlers only for 404, 422 and `AuthError`); its content is
the framework's own, not one of the JSON envelopes. -/
def default_error_page (code : Nat) : Json :=
  Json.obj [("framework_error_page", Json.num code)]

/-- Dispatch of an aborted status to the registered error handlers (api.py
lines 213-229). -/
def error_response (code : Nat) : Json :=
  if code == 422 then unprocessable_body
  else if code == 404 then not_found_body
  else default_error_page code

/-- An HTTP response: status, JSON body, and response headers. -/
structure Response where
  status : Nat
  body : Json
  headers : List (String × String)
deriving Repr

/-- `header[k] = v` on a response's headers: replace the header when present,
append it otherwise. -/
def setHeader (hs : List (String × String)) (k v : String) :
    List (String × String) :=
  if hs.any (fun p => p.1 == k) then
    hs.map (fun p => if p.1 == k then (k, v) else p)
  else hs ++ [(k, v)]

/-- The `Access-Control-Allow-Headers` value set by `after_request` (api.py
lines 37-38).  The Python string literal uses a backslash line continuation,
so the 46 spaces of the continuation line's indentation are part of the
value, between `Content-Type, ` and `true`. -/
def allow_headers_value : String :=
  "Authorization, Content-Type, " ++ String.mk (List.replicate 46 ' ') ++ "true"

/-- The `Access-Control-Allow-Methods` value set by `after_request` (api.py
lines 39-40), with the same line-continuation indentation before
`OPTIONS`. -/
def allow_methods_value : String :=
  "POST,GET,PUT,DELETE,PATCH," ++ String.mk (List.replicate 46 ' ') ++ "OPTIONS"

/-- The three `header[...] = ...` assignments of `after_request` (api.py
lines 36-40), applied to a response's headers. -/
def corsify (hs : List (String × String)) : List (String × String) :=
  setHeader (setHeader (setHeader hs
      "Access-Control-Allow-Origin" "*")
      "Access-Control-Allow-Headers" allow_headers_value)
      "Access-Control-Allow-Methods" allow_methods_value

/-- `after_request` (api.py lines 33-41): set the three CORS headers on every
outgoing response. -/
def after_request (r : Response) : Response :=
  { r with headers := corsify r.headers }

/-- Split a sequence of characters at every comma. -/
def splitAtCommas (cs : List Char) (acc : List Char) : List (List Char) :=
  match cs with
  | [] => [acc.reverse]
  | c :: rest =>
    if c == ',' then acc.reverse :: splitAtCommas rest []
    else splitAtCommas rest (c :: acc)

/-- Drop space characters from both ends of a character sequence. -/
def trimSpaces (cs : List Char) : List Char :=
  ((cs.dropWhile (fun c => c == ' ')).reverse.dropWhile (fun c => c == ' ')).reverse

/-- The elements an HTTP header list value names: split on commas, with the
optional whitespace around each element trimmed (HTTP field list syntax). -/
def headerListElems (v : String) : List String :=
  (splitAtCommas v.data []).map (fun cs => String.mk (trimSpaces cs))

/-- The five routes of api.py; POST and PATCH carry the outcome of
`request.get_json()` on their body. -/
inductive Route where
  | getDrinks : Route
  | getDrinksDetail : Route
  | postDrinks (getJson : Except Exc Json) : Route
  | patchDrink (drink_id : Nat) (getJson : Except Exc Json) : Route
  | deleteDrink (drink_id : Nat) : Route

/-- The permission each route's `requires_auth` decorator demands;
`GET /drinks` is public. -/
def Route.permission : Route → Option String
  | .getDrinks => none
  | .getDrinksDetail => some "get:drinks-detail"
  | .postDrinks _ => some "post:drinks"
  | .patchDrink _ _ => some "patch:drinks"
  | .deleteDrink _ => some "delete:drinks"

/-- The `try` body of each route's handler. -/
def Route.tryBody : Route → Store → StorageBehavior → Except Exc (Json × Store)
  | .getDrinks, store, sb => get_drinks store sb
  | .getDrinksDetail, store, sb => get_drink_details store sb
  | .postDrinks getJson, store, sb => post_drinks store getJson sb
  | .patchDrink i getJson, store, sb => update_drink store i getJson sb
  | .deleteDrink i, store, sb => delete_drinks store i sb

/-- The `except` clauses around each route's body: `GET /drinks` has only
the generic clause, the four authenticated handlers also catch `AuthError`
first. -/
def Route.exceptClauses : Route → Except Exc (Json × Store) → Except Nat (Json × Store)
  | .getDrinks => get_drinks_catch
  | _ => authed_catch

/-- Run one route's handler under its `except` clauses, then the registered
error handlers: a successful body is a 200 response; an aborted status is
rendered by `error_response`.  A failed body leaves the store unchanged
(the single-row writes are atomic, spec section 4.3). -/
def runHandler (route : Route) (sb : StorageBehavior) (store : Store) :
    Response × Store :=
  match route.exceptClauses (route.tryBody store sb) with
  | .ok (body, store') => (⟨200, body, []⟩, store')
  | .error code => (⟨code, error_response code, []⟩, store)

/-- One full request/response cycle for a route: when the route is guarded,
run the permission check first — its `AuthError` propagates, uncaught, to the
registered `AuthError` handler (api.py lines 233-235: `jsonify(e.error),
e.status_code`) without the handler body running; otherwise run the handler.
Finally `after_request` decorates every response, on every path, with the
CORS headers.  Returns the response and the store after the request. -/
def handle (route : Route) (tok : TokenResult) (sb : StorageBehavior)
    (store : Store) : Response × Store :=
  let rs : Response × Store :=
    match route.permission with
    | some p =>
      match requires_auth p tok with
      | .error e => (⟨e.status_code, e.error, []⟩, store)
      | .ok _payload => runHandler route sb store
    | none => runHandler route sb store
  (after_request rs.1, rs.2)

/-- Whether a route's permission guard lets a request through: public routes
always do, guarded routes exactly when `requires_auth` succeeds. -/
def guardPasses (route : Route) (tok : TokenResult) : Bool :=
  match route.permission with
  | none => true
  | some p =>
    match requires_auth p tok with
    | .ok _ => true
    | .error _ => false

/-- A request with no usable bearer token (the Token Verifier fails: here, a
missing Authorization header). -/
def badTok : TokenResult :=
  .failure "authorization_header_missing" "Authorization header is expected."

/-- A verified token granting `delete:drinks`. -/
def delTok : TokenResult := .claims (some ["delete:drinks"]) Json.null

/-- A verified token granting `post:drinks`. -/
def postTok : TokenResult := .claims (some ["post:drinks"]) Json.null

/-- A verified token granting `patch:drinks`. -/
def patchTok : TokenResult := .claims (some ["patch:drinks"]) Json.null

/-- A sample stored drink. -/
def waterRow : DrinkRow :=
  ⟨1, Json.str "Water",
   dumps (Json.arr [Json.obj [("name", Json.str "Water"),
                              ("color", Json.str "blue"),
                              ("parts", Json.num 1)]])⟩

/-- `after_request` changes only the headers: the status is untouched. -/
theorem after_request_status (r : Response) : (after_request r).status = r.status := rfl

/-- `after_request` changes only the headers: the body is untouched. -/
theorem after_request_body (r : Response) : (after_request r).body = r.body := rfl

/-- `after_request` sets the headers through `corsify`. -/
theorem after_request_headers (r : Response) :
    (after_request r).headers = corsify r.headers := rfl

/-- Every failure of the permission guard carries HTTP status 401. -/
theorem requires_auth_error_status {p : String} {tok : TokenResult} {e : AuthErr}
    (h : requires_auth p tok = .error e) : e.status_code = 401 := by
  cases tok with
  | failure c d =>
    simp only [requires_auth] at h
    cases h
    rfl
  | claims perms payload =>
    cases perms with
    | none =>
      simp only [requires_auth] at h
      cases h
      rfl
    | some ps =>
      simp only [requires_auth] at h
      split at h
      · exact Except.noConfusion h
      · cases h
        rfl

/-- Both catch chains pass a successful body through unchanged. -/
theorem exceptClauses_ok {route : Route} {r : Except Exc (Json × Store)}
    {v : Json × Store} (h : route.exceptClauses r = .ok v) : r = .ok v := by
  cases route <;>
    simp only [Route.exceptClauses, get_drinks_catch, authed_catch] at h <;>
    (cases r with
     | ok w => cases h; rfl
     | error e =>
       first
       | exact Except.noConfusion h
       | (cases e <;> exact Except.noConfusion h))

/-- Both catch chains abort with 401 or 422. -/
theorem exceptClauses_error_code {route : Route} {r : Except Exc (Json × Store)}
    {code : Nat} (h : route.exceptClauses r = .error code) :
    code = 401 ∨ code = 422 := by
  cases route <;>
    simp only [Route.exceptClauses, get_drinks_catch, authed_catch] at h <;>
    (cases r with
     | ok w => exact Except.noConfusion h
     | error e =>
       first
       | (cases h; right; rfl)
       | (cases e with
          | authError a => cases h; left; rfl
          | httpAbort c => cases h; right; rfl
          | other => cases h; right; rfl))

/-- C1: the code disagrees with the claim on an empty catalog.  `GET /drinks`
on a store with zero drinks answers 422, not 404: the `abort(404)` raised
inside the `try` block is an `Exception`, so the handler's own
`except(Exception)` clause catches it and re-raises `abort(422)` (api.py
lines 56-70).  On a non-empty store the documented 200 response with the
short projections does hold. -/
theorem get_drinks_empty_store_is_422 :
    (handle Route.getDrinks badTok ⟨true, true⟩ []).1.status = 422 ∧
    (handle Route.getDrinks badTok ⟨true, true⟩ []).1.body = unprocessable_body ∧
    (handle Route.getDrinks badTok ⟨true, true⟩ [waterRow]).1.status = 200 ∧
    (handle Route.getDrinks badTok ⟨true, true⟩ [waterRow]).1.body
      = Json.obj [("success", Json.bool true),
                  ("drinks", Json.arr (([waterRow] : Store).map DrinkRow.short))] :=
  ⟨rfl, rfl, rfl, rfl⟩

/-- C2: the code disagrees with the claim on a missing id.  `DELETE
/drinks/{id}` with a valid `delete:drinks` token answers 422, not 404, when
the id does not exist (999999 on a fresh catalog): the `abort(404)` is caught
by the handler's own `except(Exception)` clause and re-raised as 422 (api.py
lines 186-205).  When the drink exists, the documented behavior holds: the
row is removed and the response is 200 with `{success: true, delete: id}`. -/
theorem delete_nonexistent_is_422 :
    (handle (Route.deleteDrink 999999) delTok ⟨true, true⟩ []).1.status = 422 ∧
    (handle (Route.deleteDrink 999999) delTok ⟨true, true⟩ []).1.body = unprocessable_body ∧
    (handle (Route.deleteDrink 1) delTok ⟨true, true⟩ [waterRow]).1.status = 200 ∧
    (handle (Route.deleteDrink 1) delTok ⟨true, true⟩ [waterRow]).1.body
      = Json.obj [("success", Json.bool true), ("delete", Json.num 1)] ∧
    (handle (Route.deleteDrink 1) delTok ⟨true, true⟩ [waterRow]).2 = [] :=
  ⟨rfl, rfl, rfl, rfl, rfl⟩

/-- C3: a `POST /drinks` request whose permission check fails — an invalid or
missing Authorization header, or a token without `post:drinks` — is answered
with status 401 and leaves the repository untouched: the guard raises before
the handler body runs, and the AuthError handler (api.py lines 233-235)
renders the failure with the error's own 401 status. -/
theorem post_drinks_auth_failure_is_401_and_writes_nothing
    (tok : TokenResult) (e : AuthErr)
    (hfail : requires_auth "post:drinks" tok = .error e)
    (getJson : Except Exc Json) (sb : StorageBehavior) (store : Store) :
    (handle (Route.postDrinks getJson) tok sb store).1.status = 401 ∧
    (handle (Route.postDrinks getJson) tok sb store).2 = store := by
  have h401 : e.status_code = 401 := requires_auth_error_status hfail
  simp only [handle, Route.permission, hfail, after_request_status]
  exact ⟨h401, trivial⟩

/-- C3 witness: omitting the Authorization header on `POST /drinks` (on a
sample one-drink store, with a well-formed body) answers 401 and leaves the
store unchanged. -/
theorem post_drinks_auth_failure_witness :
    (handle (Route.postDrinks (.ok (Json.obj [("title", Json.str "Tea")])))
        badTok ⟨true, true⟩ [waterRow]).1.status = 401 ∧
    (handle (Route.postDrinks (.ok (Json.obj [("title", Json.str "Tea")])))
        badTok ⟨true, true⟩ [waterRow]).2 = [waterRow] :=
  post_drinks_auth_failure_is_401_and_writes_nothing badTok
    ⟨authPayload "authorization_header_missing" "Authorization header is expected.", 401⟩
    rfl _ _ _

/-- C10: the two read-only routes never modify the drink store: whatever the
token, the storage behavior and the outcome, the store after a `GET /drinks`
or `GET /drinks-detail` request equals the store before it. -/
theorem get_routes_preserve_store (tok : TokenResult) (sb : StorageBehavior)
    (store : Store) :
    (handle Route.getDrinks tok sb store).2 = store ∧
    (handle Route.getDrinksDetail tok sb store).2 = store := by
  constructor
  · simp only [handle, Route.permission, runHandler, Route.exceptClauses,
      Route.tryBody]
    rcases hr : get_drinks_catch (get_drinks store sb) with code | v
    · simp [hr]
    · simp only [hr]
      have hb : get_drinks store sb = .ok v := by
        cases hg : get_drinks store sb with
        | ok w => rw [hg] at hr; simpa [get_drinks_catch] using hr
        | error e => rw [hg] at hr; exact Except.noConfusion hr
      obtain ⟨b, s'⟩ := v
      have : s' = store := by
        unfold get_drinks at hb
        split at hb
        · exact Except.noConfusion hb
        · split at hb
          · exact Except.noConfusion hb
          · simp only [Except.ok.injEq, Prod.mk.injEq] at hb
            exact hb.2.symm
      simp [this]
  · simp only [handle, Route.permission]
    rcases ha : requires_auth "get:drinks-detail" tok with e | pl
    · simp [ha]
    · simp only [ha, runHandler, Route.exceptClauses, Route.tryBody]
      rcases hr : authed_catch (get_drink_details store sb) with code | v
      · simp [hr]
      · simp only [hr]
        have hb : get_drink_details store sb = .ok v := by
          cases hg : get_drink_details store sb with
          | ok w => rw [hg] at hr; simpa [authed_catch] using hr
          | error e => rw [hg] at hr; cases e <;> exact Except.noConfusion hr
        obtain ⟨b, s'⟩ := v
        have : s' = store := by
          unfold get_drink_details at hb
          split at hb
          · exact Except.noConfusion hb
          · split at hb
            · exact Except.noConfusion hb
            · simp only [Except.ok.injEq, Prod.mk.injEq] at hb
              exact hb.2.symm
        simp [this]

/-- When the guard passes on a guarded route, `requires_auth` succeeded. -/
theorem guardPasses_requires_auth {route : Route} {tok : TokenResult} {p : String}
    (hperm : route.permission = some p) (h : guardPasses route tok = true) :
    ∃ pl, requires_auth p tok = .ok pl := by
  unfold guardPasses at h
  rw [hperm] at h
  split at h
  · next heq => exact Option.noConfusion heq
  · next p' heq =>
    obtain rfl : p' = p := by
      injection heq with h2
      exact h2.symm
    split at h
    · next pl hpl => exact ⟨pl, hpl⟩
    · exact Bool.noConfusion h

/-- The handler stage only ever answers 200, 401 or 422. -/
theorem runHandler_status (route : Route) (sb : StorageBehavior) (store : Store) :
    (runHandler route sb store).1.status = 200 ∨
    (runHandler route sb store).1.status = 401 ∨
    (runHandler route sb store).1.status = 422 := by
  unfold runHandler
  rcases hr : route.exceptClauses (route.tryBody store sb) with code | v
  · rcases exceptClauses_error_code hr with h | h <;> simp [hr, h]
  · obtain ⟨b, s'⟩ := v
    simp [hr]

/-- A non-AuthError failure of a handler body is re-raised as `abort(422)` by
every route's catch chain. -/
theorem exceptClauses_not_auth_422 (route : Route) (e : Exc)
    (hna : ∀ a : AuthErr, e ≠ .authError a) :
    route.exceptClauses (.error e) = .error 422 := by
  cases route <;> cases e <;>
    first
    | exact absurd rfl (hna _)
    | rfl

/-- The handler stage renders 404 and 422 with their registered JSON
envelopes. -/
theorem runHandler_envelopes (route : Route) (sb : StorageBehavior) (store : Store) :
    ((runHandler route sb store).1.status = 404 →
      (runHandler route sb store).1.body = not_found_body) ∧
    ((runHandler route sb store).1.status = 422 →
      (runHandler route sb store).1.body = unprocessable_body) := by
  unfold runHandler
  rcases hr : route.exceptClauses (route.tryBody store sb) with code | v
  · simp only [hr]
    constructor
    · intro h
      subst h
      rfl
    · intro h
      subst h
      rfl
  · obtain ⟨b, s'⟩ := v
    simp only [hr]
    constructor <;> intro h <;> exact absurd h (by decide)

/-- Any 422 the pipeline emits carries the fixed unprocessable envelope. -/
theorem handle_422_body (route : Route) (tok : TokenResult)
    (sb : StorageBehavior) (store : Store)
    (h : (handle route tok sb store).1.status = 422) :
    (handle route tok sb store).1.body = unprocessable_body := by
  revert h
  simp only [handle, after_request_status, after_request_body]
  rcases hperm : route.permission with _ | p
  · simp only [hperm]
    exact (runHandler_envelopes route sb store).2
  · simp only [hperm]
    rcases ha : requires_auth p tok with ae | pl
    · simp only [ha]
      intro h
      exact absurd ((requires_auth_error_status ha).symm.trans h) (by decide)
    · simp only [ha]
      exact (runHandler_envelopes route sb store).2

/-- C5: the boundary coercion policy.  First, no request to any of the five
routes ever escapes with a raw 500 (or any status outside 200/401/422).
Second, whenever the permission guard lets a request through and the
handler's `try` body fails with anything that is neither an `AuthError` nor
the explicit `abort(404)`, the response status is 422.  Third, a 422 never
surfaces internal error detail: its body is always the fixed unprocessable
envelope. -/
theorem no_raw_500_and_catch_all_422 :
    (∀ (route : Route) (tok : TokenResult) (sb : StorageBehavior) (store : Store),
      (handle route tok sb store).1.status = 200 ∨
      (handle route tok sb store).1.status = 401 ∨
      (handle route tok sb store).1.status = 422) ∧
    (∀ (route : Route) (tok : TokenResult) (sb : StorageBehavior) (store : Store)
        (e : Exc),
      guardPasses route tok = true →
      route.tryBody store sb = .error e →
      (∀ a : AuthErr, e ≠ .authError a) →
      e ≠ .httpAbort 404 →
      (handle route tok sb store).1.status = 422) ∧
    (∀ (route : Route) (tok : TokenResult) (sb : StorageBehavior) (store : Store),
      (handle route tok sb store).1.status = 422 →
      (handle route tok sb store).1.body = unprocessable_body) := by
  refine ⟨?_, ?_, handle_422_body⟩
  · intro route tok sb store
    simp only [handle, after_request_status]
    rcases hperm : route.permission with _ | p
    · simp only [hperm]
      exact runHandler_status route sb store
    · simp only [hperm]
      rcases ha : requires_auth p tok with ae | pl

      · simp only [ha]
        right; left
        exact requires_auth_error_status ha
      · simp only [ha]
        exact runHandler_status route sb store
  · intro route tok sb store e hguard hbody hna _h404
    simp only [handle, after_request_status]
    rcases hperm : route.permission with _ | p
    · simp only [hperm]
      simp only [runHandler, hbody, exceptClauses_not_auth_422 route e hna]
    · simp only [hperm]
      rcases ha : requires_auth p tok with ae | pl
      · exact absurd ((guardPasses_requires_auth hperm hguard).choose_spec.symm.trans ha)
          (fun hcontra => Except.noConfusion hcontra)
      · simp only [ha]
        simp only [runHandler, hbody, exceptClauses_not_auth_422 route e hna]

/-- C5 witness: a storage read failure on the public route surfaces as 422
with the fixed unprocessable envelope. -/
theorem no_raw_500_and_catch_all_422_witness :
    (handle Route.getDrinks badTok ⟨false, true⟩ [waterRow]).1.status = 422 ∧
    (handle Route.getDrinks badTok ⟨false, true⟩ [waterRow]).1.body
      = unprocessable_body :=
  ⟨no_raw_500_and_catch_all_422.2.1 Route.getDrinks badTok ⟨false, true⟩
      [waterRow] Exc.other rfl rfl (fun _ h => Exc.noConfusion h)
      (fun h => Exc.noConfusion h),
   no_raw_500_and_catch_all_422.2.2 Route.getDrinks badTok ⟨false, true⟩
      [waterRow] rfl⟩

/-- C7: every 404 response carries exactly the not-found envelope
`{success: false, error: 404, message: "resource not found"}` and every 422
response exactly the unprocessable envelope `{success: false, error: 422,
message: "unprocessable"}`, whatever route or internal condition produced the
status. -/
theorem error_envelopes_fixed (route : Route) (tok : TokenResult)
    (sb : StorageBehavior) (store : Store) :
    ((handle route tok sb store).1.status = 404 →
      (handle route tok sb store).1.body = not_found_body) ∧
    ((handle route tok sb store).1.status = 422 →
      (handle route tok sb store).1.body = unprocessable_body) := by
  simp only [handle, after_request_status, after_request_body]
  rcases hperm : route.permission with _ | p
  · simp only [hperm]
    exact runHandler_envelopes route sb store
  · simp only [hperm]
    rcases ha : requires_auth p tok with ae | pl
    · simp only [ha]
      have h401 := requires_auth_error_status ha
      constructor <;> intro h <;> exact absurd (h401.symm.trans h) (by decide)
    · simp only [ha]
      exact runHandler_envelopes route sb store

/-- C7 witness: the 422 produced by `GET /drinks` on an empty catalog carries
the unprocessable envelope. -/
theorem error_envelopes_fixed_witness :
    (handle Route.getDrinks badTok ⟨true, true⟩ []).1.body = unprocessable_body :=
  (error_envelopes_fixed Route.getDrinks badTok ⟨true, true⟩ []).2 rfl

/-- C4: on `PATCH /drinks/{id}` for an existing id, a supplied field is
applied only when its value is truthy.  The stored row afterwards carries the
body's title exactly when that title is truthy — so `{title: ""}` leaves the
stored title unchanged — and the serialized body recipe exactly when that
recipe is truthy — so an empty recipe array leaves the stored recipe
unchanged; a field absent from the body defaults to null, which is falsy, and
never changes the stored value. -/
theorem patch_truthy_field_policy
    (store : Store) (drink_id : Nat) (ms : List (String × Json))
    (tok : TokenResult) (pl : Json) (d : DrinkRow)
    (hauth : requires_auth "patch:drinks" tok = .ok pl)
    (hfind : store.find? (fun r => r.id == drink_id) = some d) :
    (handle (Route.patchDrink drink_id (.ok (Json.obj ms))) tok ⟨true, true⟩ store).2
      = store.map (fun r => if r.id == drink_id then
          { id := d.id
            title := if ((ms.lookup "title").getD Json.null).truthy
                     then (ms.lookup "title").getD Json.null else d.title
            recipe := if ((ms.lookup "recipe").getD Json.null).truthy
                      then dumps ((ms.lookup "recipe").getD Json.null) else d.recipe }
          else r) := by
  simp only [handle, Route.permission, hauth, runHandler, Route.exceptClauses,
    Route.tryBody, update_drink, Json.dictGet, hfind, authed_catch]
  simp only [Bool.not_true, Bool.false_eq_true, if_false]
  by_cases ht : ((ms.lookup "title").getD Json.null).truthy <;>
    by_cases hr : ((ms.lookup "recipe").getD Json.null).truthy <;>
    simp [ht, hr]

/-- C4 witness: patching the sample drink with body `{title: ""}` (an
untruthy title, no recipe) goes through the theorem and leaves the stored
row exactly as characterized. -/
theorem patch_truthy_field_policy_witness :
    (handle (Route.patchDrink 1 (.ok (Json.obj [("title", Json.str "")])))
        patchTok ⟨true, true⟩ [waterRow]).2
      = ([waterRow] : Store).map (fun r => if r.id == 1 then
          { id := waterRow.id
            title := if (([("title", Json.str "")].lookup "title").getD Json.null).truthy
                     then ([("title", Json.str "")].lookup "title").getD Json.null
                     else waterRow.title
            recipe := if (([("title", Json.str "")].lookup "recipe").getD Json.null).truthy
                      then dumps (([("title", Json.str "")].lookup "recipe").getD Json.null)
                      else waterRow.recipe }
          else r) :=
  patch_truthy_field_policy [waterRow] 1 [("title", Json.str "")] patchTok
    Json.null waterRow rfl rfl

/-- In a store whose ids are pairwise distinct (ids are unique, spec
section 3), replacing any member that carries the id `find?` matched by the
found row itself changes nothing. -/
theorem replace_found_pointwise {store : Store} {i : Nat} {d : DrinkRow}
    (hfind : store.find? (fun r => r.id == i) = some d)
    (hnodup : (store.map DrinkRow.id).Nodup) :
    ∀ r ∈ store, (if r.id = i then d else r) = r := by
  have hd_mem : d ∈ store := List.mem_of_find?_eq_some hfind
  have hd_id : d.id = i := by
    have := List.find?_some hfind
    simpa using this
  intro r hr
  by_cases hri : r.id = i
  · have hrd : r = d :=
      List.inj_on_of_nodup_map hnodup hr hd_mem (by rw [hri, hd_id])
    simp [hri, hrd]
  · simp [hri]

/-- C9: a `PATCH /drinks/{id}` on an existing id whose JSON body supplies
neither a truthy title nor a truthy recipe (for example the empty object)
succeeds: the response is 200 with `success: true` and all drinks in long
projection, and the store — in particular the drink's title and recipe — is
unchanged. -/
theorem patch_without_truthy_fields_is_noop
    (store : Store) (drink_id : Nat) (ms : List (String × Json))
    (tok : TokenResult) (pl : Json) (d : DrinkRow)
    (hauth : requires_auth "patch:drinks" tok = .ok pl)
    (hfind : store.find? (fun r => r.id == drink_id) = some d)
    (hnodup : (store.map DrinkRow.id).Nodup)
    (ht : ((ms.lookup "title").getD Json.null).truthy = false)
    (hrc : ((ms.lookup "recipe").getD Json.null).truthy = false) :
    (handle (Route.patchDrink drink_id (.ok (Json.obj ms))) tok ⟨true, true⟩
        store).1.status = 200 ∧
    (handle (Route.patchDrink drink_id (.ok (Json.obj ms))) tok ⟨true, true⟩
        store).1.body
      = Json.obj [("success", Json.bool true),
                  ("drinks", Json.arr (store.map DrinkRow.long))] ∧
    (handle (Route.patchDrink drink_id (.ok (Json.obj ms))) tok ⟨true, true⟩
        store).2 = store := by
  have hpt := replace_found_pointwise hfind hnodup
  refine ⟨?_, ?_, ?_⟩
  · simp only [handle, Route.permission, hauth, runHandler, Route.exceptClauses,
      Route.tryBody, update_drink, Json.dictGet, hfind, authed_catch,
      after_request_status, after_request_body]
    simp [ht, hrc]
  · simp only [handle, Route.permission, hauth, runHandler, Route.exceptClauses,
      Route.tryBody, update_drink, Json.dictGet, hfind, authed_catch,
      after_request_status, after_request_body]
    simp [ht, hrc]
    intro a ha
    rw [hpt a ha]
  · simp only [handle, Route.permission, hauth, runHandler, Route.exceptClauses,
      Route.tryBody, update_drink, Json.dictGet, hfind, authed_catch,
      after_request_status, after_request_body]
    simp [ht, hrc]
    have h2 : (store.map fun r => if r.id = drink_id then d else r)
        = store.map (fun r => r) := List.map_congr_left hpt
    simpa using h2

/-- C9 witness: patching the sample drink with the empty body `{}` answers
200 with the long projections and leaves the store unchanged. -/
theorem patch_without_truthy_fields_is_noop_witness :
    (handle (Route.patchDrink 1 (.ok (Json.obj []))) patchTok ⟨true, true⟩
        [waterRow]).1.status = 200 ∧
    (handle (Route.patchDrink 1 (.ok (Json.obj []))) patchTok ⟨true, true⟩
        [waterRow]).1.body
      = Json.obj [("success", Json.bool true),
                  ("drinks", Json.arr (([waterRow] : Store).map DrinkRow.long))] ∧
    (handle (Route.patchDrink 1 (.ok (Json.obj []))) patchTok ⟨true, true⟩
        [waterRow]).2 = [waterRow] :=
  patch_without_truthy_fields_is_noop [waterRow] 1 [] patchTok Json.null waterRow
    rfl rfl (by simp) rfl rfl

/-- C6: a successful `POST /drinks` answers 200 with `{success: true,
drinks: <the new drink in long projection>}` — a single JSON object, not
wrapped in an array.  A `title` or `recipe` absent from the body defaults to
the null sentinel and is passed to storage as-is (the recipe serialized),
rather than being rejected in the handler: the created row carries exactly
those defaulted values. -/
theorem post_success_long_single_object
    (store : Store) (ms : List (String × Json)) (tok : TokenResult) (pl : Json)
    (hauth : requires_auth "post:drinks" tok = .ok pl) :
    (handle (Route.postDrinks (.ok (Json.obj ms))) tok ⟨true, true⟩
        store).1.status = 200 ∧
    (handle (Route.postDrinks (.ok (Json.obj ms))) tok ⟨true, true⟩
        store).1.body
      = Json.obj [("success", Json.bool true),
                  ("drinks",
                   DrinkRow.long ⟨nextId store, (ms.lookup "title").getD Json.null,
                                  dumps ((ms.lookup "recipe").getD Json.null)⟩)] ∧
    (DrinkRow.long ⟨nextId store, (ms.lookup "title").getD Json.null,
                    dumps ((ms.lookup "recipe").getD Json.null)⟩).isObj = true ∧
    (handle (Route.postDrinks (.ok (Json.obj ms))) tok ⟨true, true⟩ store).2
      = store ++ [⟨nextId store, (ms.lookup "title").getD Json.null,
                  dumps ((ms.lookup "recipe").getD Json.null)⟩] := by
  refine ⟨?_, ?_, rfl, ?_⟩ <;>
    simp [handle, Route.permission, hauth, runHandler, Route.exceptClauses,
      Route.tryBody, post_drinks, Json.dictGet, insertDrink, authed_catch,
      after_request_status, after_request_body]

/-- C6 witness: posting the empty body `{}` with a valid `post:drinks` token
on an empty store succeeds with the null-defaulted fields stored. -/
theorem post_success_long_single_object_witness :
    (handle (Route.postDrinks (.ok (Json.obj []))) postTok ⟨true, true⟩
        []).1.status = 200 ∧
    (handle (Route.postDrinks (.ok (Json.obj []))) postTok ⟨true, true⟩
        []).2 = [⟨1, Json.null, dumps Json.null⟩] := by
  have h := post_success_long_single_object [] [] postTok Json.null rfl
  exact ⟨h.1, by simpa using h.2.2.2⟩

/-- The handler stage emits its response with no headers of its own. -/
theorem runHandler_headers (route : Route) (sb : StorageBehavior)
    (store : Store) : (runHandler route sb store).1.headers = [] := by
  unfold runHandler
  rcases hr : route.exceptClauses (route.tryBody store sb) with code | v
  · simp [hr]
  · obtain ⟨b, s'⟩ := v
    simp [hr]

/-- Every response of every route leaves `handle` with exactly the three
CORS headers `after_request` sets. -/
theorem handle_headers (route : Route) (tok : TokenResult)
    (sb : StorageBehavior) (store : Store) :
    (handle route tok sb store).1.headers = corsify [] := by
  simp only [handle, after_request_headers]
  rcases hperm : route.permission with _ | p
  · simp only [hperm]
    exact congrArg corsify (runHandler_headers route sb store)
  · simp only [hperm]
    rcases ha : requires_auth p tok with ae | pl
    · simp only [ha]
    · simp only [ha]
      exact congrArg corsify (runHandler_headers route sb store)

/-- C8 counterexample: the claim that the responses list exactly
`Authorization` and `Content-Type` as allowed request headers is false on a
concrete response: the `Access-Control-Allow-Headers` value of the api.py
source also contains the literal element `true` (the backslash line
continuation keeps `true` inside the string). -/
theorem allow_headers_not_exactly_the_two :
    ¬ headerListElems
        (((handle Route.getDrinks badTok ⟨true, true⟩ []).1.headers.lookup
            "Access-Control-Allow-Headers").getD "")
      = ["Authorization", "Content-Type"] := by
  decide

/-- C8 amended: every response, on every route and for every outcome
including errors, carries CORS headers permitting any origin and the methods
POST/GET/PUT/DELETE/PATCH/OPTIONS, and an allowed-request-header list naming
`Authorization`, `Content-Type` — and additionally the spurious literal
entry `true` present in the source string. -/
theorem cors_headers_on_every_response (route : Route) (tok : TokenResult)
    (sb : StorageBehavior) (store : Store) :
    (handle route tok sb store).1.headers.lookup "Access-Control-Allow-Origin"
      = some "*" ∧
    ((handle route tok sb store).1.headers.lookup
        "Access-Control-Allow-Methods").map headerListElems
      = some ["POST", "GET", "PUT", "DELETE", "PATCH", "OPTIONS"] ∧
    ((handle route tok sb store).1.headers.lookup
        "Access-Control-Allow-Headers").map headerListElems
      = some ["Authorization", "Content-Type", "true"] := by
  rw [handle_headers route tok sb store]
  refine ⟨?_, ?_, ?_⟩ <;> decide

end CoffeeShop
